import Mathlib

/-!
# Verification of the multi-tenant connection resolution and execution layer

Shallow embedding of `src/backend/core/database.py` (the engine cache,
`DatabaseManager.get_user_connection_engine` / `close_connections`) and of
`src/backend/app/helpers/user_connections.py` (`get_db_schema` with its nested
helpers `_resolve_engine_from_connection`, `_quote_identifier`, `_sample_query`,
`_render_markdown_table`, and `execute_query`).

Modelling conventions:
* Python `None`-able values become `Option`; Python truthiness of strings,
  ints and lists is modelled explicitly (`pyTruthy`, `pyTruthyInt`).
* Python exceptions become `Except String` (the string is the message);
  `try/except` blocks become `match`es on the `Except` value.
* The mutable engine/session-factory caches of `DatabaseManager` become an
  explicit `ConnState` threaded through the functions.  Engine object identity
  (Python reference equality) is modelled by a fresh numeric `id` drawn from a
  counter at each `create_engine` call.
* External collaborators (the credential store, the secret cipher, the SQL
  driver, SQLAlchemy introspection) are fields of an explicit environment
  `Env`; their outcomes are `Except` values so both the success and the
  raising behaviour of each call site can be analysed.
* Engine construction details that are pure side effects on the external
  driver (SQLite `PRAGMA` hooks, pool sizes, `echo`) are not observable by any
  function in scope and are not recorded in the `Engine` value; the data that
  the code itself later consults (URL, custom-kind `search_path` schema) is.
-/

/-- Python truthiness of an optional string: `None` and `""` are falsy. -/
def pyTruthy : Option String → Bool
  | some s => !s.isEmpty
  | none => false

/-- Python truthiness of an optional int: `None` and `0` are falsy. -/
def pyTruthyInt : Option Int → Bool
  | some v => v != 0
  | none => false

/-- Python `a or b` on two optional ints (returns `a` when truthy, else `b`). -/
def pyOrInt (a b : Option Int) : Option Int :=
  if pyTruthyInt a then a else b

/-- Python f-string rendering of an optional string (`None` renders as `"None"`). -/
def pyStr : Option String → String
  | some s => s
  | none => "None"

/-- ASCII lowering of one character (Python `str.lower` on the ASCII range). -/
def charLower (c : Char) : Char :=
  if 'A' ≤ c ∧ c ≤ 'Z' then Char.ofNat (c.toNat + 32) else c

/-- Python `str.lower()` (ASCII; the values in scope are ASCII). -/
def pyLower (s : String) : String := ⟨s.data.map charLower⟩

/-- The whitespace characters Python `str.strip()` removes. -/
def isSpaceChar (c : Char) : Bool :=
  c = ' ' || c = '\t' || c = '\n' || c = '\x0d' || c = '\x0b' || c = '\x0c'

/-- Python `str.strip()`: drop leading and trailing whitespace. -/
def strStrip (s : String) : String :=
  ⟨((s.data.dropWhile isSpaceChar).reverse.dropWhile isSpaceChar).reverse⟩

/-- Fuel-driven replacement of every occurrence of `needle` in a character
list (the fuel is the list length, enough for every occurrence). -/
def listReplaceAux (needle repl : List Char) : Nat → List Char → List Char
  | _, [] => []
  | 0, l => l
  | fuel + 1, c :: t =>
    if needle.isPrefixOf (c :: t) then
      repl ++ listReplaceAux needle repl fuel (List.drop (needle.length - 1) t)
    else
      c :: listReplaceAux needle repl fuel t

/-- Python `s.replace(needle, repl)` (for nonempty `needle`). -/
def pyReplace (s needle repl : String) : String :=
  if needle.data.isEmpty then s
  else ⟨listReplaceAux needle.data repl.data s.data.length s.data⟩

/-- `MAX_IDENTIFIER_LEN` from `core/tenancy.py`: PostgreSQL identifier limit. -/
def MAX_IDENTIFIER_LEN : Nat := 63

/-- The configuration fields of `core/config.py` that the modelled code reads. -/
structure Settings where
  postgres_url : String
  master_encryption_key : String
  deriving Repr, DecidableEq

/-- A live SQLAlchemy engine as observable by the code under verification:
its object identity (`id`, models Python reference identity), the URL it was
created with, and — for `custom`-kind engines — the schema its connect-time
hook sets as `search_path`. -/
structure Engine where
  id : Nat
  url : String
  searchPath : Option String
  deriving Repr, DecidableEq

/-- The mutable state of `DatabaseManager` relevant to user-connection engines:
the `(user_id, connection_id)`-keyed engine cache, the companion
session-factory cache (only the keys matter to the code in scope), and the
counter supplying fresh engine identities. -/
structure ConnState where
  engines : List ((Int × Int) × Engine)
  sessionFactories : List (Int × Int)
  nextId : Nat
  deriving Repr, DecidableEq

/-- Dictionary lookup in the engine cache (`key in self._user_connection_engines`
followed by indexing). -/
def lookupEngine : List ((Int × Int) × Engine) → (Int × Int) → Option Engine
  | [], _ => none
  | (k, e) :: t, key => if k = key then some e else lookupEngine t key

/-- `DatabaseManager.get_user_connection_engine` from `core/database.py`:
returns the cached engine for `(user_id, connection_id)` when present;
otherwise builds one according to `db_type` (`sqlite` / `postgres` /
`postgresql` / `custom`), caches it together with a session factory, and
returns it.  Unsupported kinds, and `custom` without a (stripped) nonempty
`database_name`, raise `ValueError`, modelled as `Except.error`. -/
def get_user_connection_engine (settings : Settings)
    (user_id connection_id : Int) (db_type : String)
    (host : Option String) (port : Option Int)
    (username : Option String) (password : Option String)
    (database_name : Option String) (st : ConnState) :
    Except String (Engine × ConnState) :=
  let key := (user_id, connection_id)
  match lookupEngine st.engines key with
  | some engine => .ok (engine, st)
  | none =>
    let cache (engine : Engine) : Except String (Engine × ConnState) :=
      .ok (engine,
        { engines := (key, engine) :: st.engines,
          sessionFactories := key :: st.sessionFactories,
          nextId := st.nextId + 1 })
    if pyLower db_type = "sqlite" then
      -- host is file path
      cache { id := st.nextId, url := "sqlite:///" ++ pyStr host, searchPath := none }
    else if pyLower db_type = "postgres" ∨ pyLower db_type = "postgresql" then
      let auth :=
        if pyTruthy username && pyTruthy password then
          pyStr username ++ ":" ++ pyStr password ++ "@"
        else if pyTruthy username then
          pyStr username ++ "@"
        else ""
      let port_part :=
        if pyTruthyInt port then ":" ++ toString (port.getD 0) else ""
      cache { id := st.nextId,
              url := "postgresql://" ++ auth ++ pyStr host ++ port_part ++ "/"
                       ++ pyStr database_name,
              searchPath := none }
    else if pyLower db_type = "custom" then
      -- points at the main Postgres DB; database_name is the tenant schema
      let schema_name := strStrip (database_name.getD "")
      if schema_name.isEmpty then
        .error "Custom connection requires schema name in database_name"
      else
        cache { id := st.nextId, url := settings.postgres_url,
                searchPath := some (schema_name.take MAX_IDENTIFIER_LEN) }
    else
      .error "Unsupported db_type"

/-- `DatabaseManager.close_connections`: disposes every cached user-connection
engine and clears both caches (disposal itself is a driver side effect). -/
def close_connections (st : ConnState) : ConnState :=
  { engines := [], sessionFactories := [], nextId := st.nextId }

/-- Is an `Except` value an error? -/
def isErr {ε α : Type} : Except ε α → Bool
  | .error _ => true
  | .ok _ => false

/-- Does the character list `needle` occur as a contiguous infix of `hay`? -/
def listHasInfixOf (needle : List Char) : List Char → Bool
  | [] => needle.isEmpty
  | c :: t => needle.isPrefixOf (c :: t) || listHasInfixOf needle t

/-- Python `needle in hay` on strings (substring containment). -/
def strContains (hay needle : String) : Bool :=
  listHasInfixOf needle.data hay.data

/-- The slice of an SQLAlchemy `engine.dialect` consulted by the helpers of
`get_db_schema`: the dialect `name` (`None`-able) and the identifier preparer's
`quote` method, `none` when accessing/calling the preparer raises. -/
structure DialectInfo where
  name : Option String
  preparer : Option (String → String)

/-- A persisted `UserConnection` record (`models/user_connection.py`) as read
by the code in scope. -/
structure ConnRecord where
  db_type : Option String
  host : Option String
  port : Option Int
  username : Option String
  encrypted_password : Option String
  iv : Option String
  database_name : Option String
  table_name : Option String
  deriving Repr, DecidableEq

/-- `user_connection_crud.get_user_connection` lookup by `(user_id, id)`. -/
def lookupRecord : List ((Int × Int) × ConnRecord) → (Int × Int) → Option ConnRecord
  | [], _ => none
  | (k, r) :: t, key => if k = key then some r else lookupRecord t key

/-- The connection-reference dict passed by the agent layer
(`ConnectionMinimalReference`, plus the legacy `id` key read by
`execute_query`). -/
structure ConnRef where
  user_id : Option Int
  connection_id : Option Int
  id : Option Int
  connection_ids : Option (List Int)
  deriving Repr, DecidableEq

/-- What the SQL driver reports for an executed statement: either it returns
rows (each row a mapping from column name to value) or it does not and only a
(possibly unknown) rowcount is available. -/
inductive DriverResult where
  | rows (rs : List (List (String × String)))
  | norows (rowcount : Option Int)
  deriving Repr, DecidableEq

/-- The structured query outcome `execute_query` serializes with `json.dumps`. -/
inductive SqlResult where
  | table (columns : List String) (rows : List (List (String × String)))
  | count (rowcount : Option Int)
  deriving Repr, DecidableEq

/-- A JSON string literal (escaping elided — values in scope carry none). -/
def jsonStr (s : String) : String := "\"" ++ s ++ "\""

/-- `json.dumps` of a query outcome, in the shapes `execute_query` builds:
`{"columns": [...], "rows": [{...}, ...]}` or `{"rowcount": n}`. -/
def serializeResult : SqlResult → String
  | .table cols rows =>
      "\x7b\"columns\": [" ++ String.intercalate ", " (cols.map jsonStr)
        ++ "], \"rows\": ["
        ++ String.intercalate ", " (rows.map (fun r =>
             "\x7b" ++ String.intercalate ", " (r.map (fun kv =>
               jsonStr kv.1 ++ ": " ++ jsonStr kv.2)) ++ "\x7d"))
        ++ "]\x7d"
  | .count rc =>
      "\x7b\"rowcount\": "
        ++ (match rc with | some n => toString n | none => "null") ++ "\x7d"

/-- The external collaborators of the layer under verification, as an explicit
environment: configuration, the credential store's contents, the secret
cipher's `decrypt`, the driver's statement execution, and the SQLAlchemy
introspection entry points used by `get_db_schema`.  Each fallible call is an
`Except` so raising call sites can be analysed. -/
structure Env where
  settings : Settings
  records : List ((Int × Int) × ConnRecord)
  decrypt : String → String → String → Except Unit String
  runQuery : Engine → String → Except String DriverResult
  inspectEngine : Engine → Except String Unit
  dialectOf : Engine → DialectInfo
  getTableNames : Engine → Except String (List String)
  getColumns : Engine → String → Except String (List String)
  connect : Engine → Except String Unit
  runSample : Engine → String → Except String (List (List (Option String)))

/-- `execute_query(connection, sql_query)` from
`app/helpers/user_connections.py`: extracts the reference ids (supporting
`connection_id`, the legacy `id`, or the first of `connection_ids`), fetches
the record, decrypts the password (failure degrades to `None`), obtains the
engine from the cache, executes the SQL and serializes either `{columns, rows}`
(at most 50 rows) or `{rowcount}`; every exception is caught and returned as
the second component of the result pair. -/
def execute_query (env : Env) (st : ConnState) (connection : ConnRef)
    (sql_query : String) : (Option String × Option String) × ConnState :=
  let user_id := connection.user_id
  let connection_id := pyOrInt connection.connection_id connection.id
  let connection_id :=
    match connection_id, connection.connection_ids with
    | none, some arr => arr.head?
    | cid, _ => cid
  match user_id, connection_id with
  | none, _ => ((none, some "Missing connection reference in state"), st)
  | some _, none => ((none, some "Missing connection reference in state"), st)
  | some uid, some cid =>
    match lookupRecord env.records (uid, cid) with
    | none => ((none, some "User connection not found"), st)
    | some record =>
      let password : Option String :=
        if pyTruthy record.encrypted_password && pyTruthy record.iv then
          match env.decrypt (record.encrypted_password.getD "")
              (record.iv.getD "") env.settings.master_encryption_key with
          | .ok p => some p
          | .error _ => none
        else none
      match get_user_connection_engine env.settings uid cid
          (pyLower (record.db_type.getD "")) record.host record.port
          record.username password record.database_name st with
      | .error msg => ((none, some msg), st)
      | .ok (engine, st') =>
        match env.runQuery engine sql_query with
        | .error msg => ((none, some msg), st')
        | .ok (.rows rs) =>
          let rows := rs.take 50
          let columns :=
            match rows with
            | [] => ([] : List String)
            | row :: _ => row.map Prod.fst
          ((some (serializeResult (.table columns rows)), none), st')
        | .ok (.norows rc) =>
          ((some (serializeResult (.count rc)), none), st')

/-- The nested `_resolve_engine_from_connection` of `get_db_schema`: picks the
target id (`connection_id`, else the first of `connection_ids`), looks the
record up, decrypts the password (failure degrades to `None`), and asks the
engine cache; every exception — including the cache's `ValueError`s — is
caught and turned into `(None, None, None)`. -/
def _resolve_engine_from_connection (env : Env) (st : ConnState)
    (conn_ref : ConnRef) :
    (Option Engine × Option String × Option String) × ConnState :=
  match conn_ref.user_id with
  | none => ((none, none, none), st)
  | some ref_user_id =>
    let target_id : Option Int :=
      match conn_ref.connection_id with
      | some v => some v
      | none =>
        match conn_ref.connection_ids with
        | some (h :: _) => some h
        | _ => none
    match target_id with
    | none => ((none, none, none), st)
    | some tid =>
      match lookupRecord env.records (ref_user_id, tid) with
      | none => ((none, none, none), st)
      | some record =>
        let password : Option String :=
          if pyTruthy record.encrypted_password && pyTruthy record.iv then
            match env.decrypt (record.encrypted_password.getD "")
                (record.iv.getD "") env.settings.master_encryption_key with
            | .ok p => some p
            | .error _ => none
          else none
        match get_user_connection_engine env.settings ref_user_id tid
            (pyLower (record.db_type.getD "")) record.host record.port
            record.username password record.database_name st with
        | .error _ => ((none, none, none), st)
        | .ok (engine, st') =>
          ((some engine, record.db_type, record.table_name), st')

/-- `_db_type_label`: human-readable label from the engine's dialect name. -/
def _db_type_label (engine : DialectInfo) : String :=
  let name := pyLower (engine.name.getD "")
  if strContains name "postgres" then "PostgreSQL"
  else if strContains name "sqlite" then "SQLite"
  else if strContains name "mssql" || strContains name "sqlserver" then "SQL Server"
  else if strContains name "oracle" then "Oracle"
  else if strContains name "mysql" then "MySQL"
  else if name.isEmpty then "Unknown" else name.capitalize

/-- `_quote_identifier`: quote via the dialect's identifier preparer, falling
back to double-quote wrapping when the preparer is unavailable. -/
def _quote_identifier (engine : DialectInfo) (identifier : String) : String :=
  match engine.preparer with
  | some quote => quote identifier
  | none => "\"" ++ identifier ++ "\""

/-- `_sample_query`: dialect-correct sampling statement (`TOP` for the SQL
Server family, `FETCH FIRST ... ROWS ONLY` for Oracle, `LIMIT` otherwise). -/
def _sample_query (engine : DialectInfo) (table_name : String) (limit : Nat) :
    String :=
  let dialect := pyLower (engine.name.getD "")
  let qtable := _quote_identifier engine table_name
  if strContains dialect "mssql" || strContains dialect "sqlserver" then
    "SELECT TOP " ++ toString limit ++ " * FROM " ++ qtable ++ ";"
  else if strContains dialect "oracle" then
    "SELECT * FROM " ++ qtable ++ " FETCH FIRST " ++ toString limit ++ " ROWS ONLY"
  else
    "SELECT * FROM " ++ qtable ++ " LIMIT " ++ toString limit ++ ";"

/-- `_render_markdown_table`: the per-table markdown block — header and
separator rows, then the sample rows (cells `None`→`""`, `|` escaped as `\|`),
or 3 empty placeholder rows when columns exist but no rows were fetched, or a
"no columns" placeholder when the column list is empty. -/
def _render_markdown_table (col_names : List String)
    (rows : List (List (Option String))) : List String :=
  if col_names.isEmpty then ["_No columns found._\n", "\n"]
  else
    let header := "| " ++ String.intercalate " | " col_names ++ " |"
    let separator :=
      "| " ++ String.intercalate " | " (List.replicate col_names.length "---") ++ " |"
    let body :=
      if rows.isEmpty then
        List.replicate 3
          ("| " ++ String.intercalate " | " (List.replicate col_names.length "") ++ " |")
      else
        rows.map (fun row =>
          "| " ++ String.intercalate " | " (row.map (fun val =>
            pyReplace (match val with | none => "" | some v => v) "|" "\\|")) ++ " |")
    header :: separator :: (body ++ ["\n"])

/-- Modelled from the spec: the external database engine executing a
`LIMIT`/`TOP`/`FETCH FIRST` sampling statement returns the first `limit` rows
of the table (the engine itself is an external collaborator, outside `src/`'s
Python code). -/
def fetchSample (tableRows : List (List (Option String))) (limit : Nat) :
    List (List (Option String)) :=
  tableRows.take limit

/-- `get_db_schema(connection)`: resolves the engine, lists tables (filtered,
for `custom` connections, to the bound table names of the reference), and
renders the per-table markdown blocks with up to 3 sample rows; a `None`
engine or any top-level introspection failure yields the empty string. -/
def get_db_schema (env : Env) (st : ConnState) (connection : ConnRef) :
    String × ConnState :=
  match _resolve_engine_from_connection env st connection with
  | ((none, _, _), st') => ("", st')
  | ((some engine, db_type, table_name), st') =>
    match env.inspectEngine engine with
    | .error _ => ("", st')
    | .ok _ =>
      let dialect := env.dialectOf engine
      let db_label := _db_type_label dialect
      let tables :=
        match env.getTableNames engine with
        | .ok ts => ts
        | .error _ => []
      let tables :=
        if db_type = some "custom" then
          let wanted : List String :=
            match connection.connection_ids with
            | some ids =>
              match connection.user_id with
              | none => []
              | some uid =>
                (if pyTruthy table_name then [table_name.getD ""] else []) ++
                  ids.filterMap (fun cid =>
                    match lookupRecord env.records (uid, cid) with
                    | some rec =>
                      if pyTruthy rec.db_type
                          && pyLower (rec.db_type.getD "") = "custom"
                          && pyTruthy rec.table_name then
                        rec.table_name
                      else none
                    | none => none)
            | none => if pyTruthy table_name then [table_name.getD ""] else []
          if wanted.isEmpty then []
          else tables.filter (fun t => (wanted.map pyLower).contains (pyLower t))
        else tables
      match env.connect engine with
      | .error _ => ("", st')
      | .ok _ =>
        let md_parts :=
          ["Database Type: " ++ db_label ++ "\n", "\n"] ++
            List.flatten (tables.map (fun table =>
              let col_names :=
                match env.getColumns engine table with
                | .ok cs => cs
                | .error _ => []
              let rows : List (List (Option String)) :=
                if col_names.isEmpty then []
                else
                  match env.runSample engine (_sample_query dialect table 3) with
                  | .ok rs => rs
                  | .error _ => []
              ("### " ++ table ++ "\n") :: _render_markdown_table col_names rows))
        (String.intercalate "\n" md_parts, st')

section CacheClaims

/-- C3: For any fixed key `(user_id, connection_id)`, two successive calls to
`get_user_connection_engine` with identical parameters return the same engine
handle (reference identity, modelled by the engine `id`): the cache mapping is
consulted before any construction (a hit leaves the state untouched), and only
a key miss constructs and inserts a new engine plus its session factory under
that key. -/
theorem cache_identity (S : Settings) (uid cid : Int) (dt : String)
    (host : Option String) (port : Option Int)
    (username password database_name : Option String)
    (st : ConnState) (e : Engine) (st' : ConnState)
    (h : get_user_connection_engine S uid cid dt host port username password
        database_name st = .ok (e, st')) :
    get_user_connection_engine S uid cid dt host port username password
        database_name st' = .ok (e, st')
    ∧ lookupEngine st'.engines (uid, cid) = some e
    ∧ (lookupEngine st.engines (uid, cid) = some e → st' = st)
    ∧ (lookupEngine st.engines (uid, cid) = none →
        st'.engines = ((uid, cid), e) :: st.engines
        ∧ st'.sessionFactories = (uid, cid) :: st.sessionFactories) := by
  simp only [get_user_connection_engine] at h ⊢
  cases hlk : lookupEngine st.engines (uid, cid) with
  | some e0 =>
    rw [hlk] at h
    simp only [Except.ok.injEq, Prod.mk.injEq] at h
    obtain ⟨he, hst⟩ := h
    subst he hst
    rw [hlk]
    simp [hlk]
  | none =>
    rw [hlk] at h
    simp only at h
    split_ifs at h with h1 h2 h3 h4 <;>
      simp only [Except.ok.injEq, Prod.mk.injEq] at h <;>
      obtain ⟨he, hst⟩ := h <;> subst he <;> subst hst <;>
      simp [lookupEngine, hlk]
end CacheClaims

/-- Concrete settings used by the concrete instantiations below. -/
def S0 : Settings := { postgres_url := "postgresql://app", master_encryption_key := "mk" }

/-- The empty engine-cache state. -/
def st0 : ConnState := { engines := [], sessionFactories := [], nextId := 0 }

/-- The engine the cache builds for a `sqlite` record with host `/tmp/f.db`. -/
def E1 : Engine := { id := 0, url := "sqlite:////tmp/f.db", searchPath := none }

/-- The cache state after constructing `E1` under key `(1, 2)`. -/
def ST1 : ConnState := { engines := [((1, 2), E1)], sessionFactories := [(1, 2)], nextId := 1 }

/-- Witness for C3: concrete first call constructs `E1`; the second call with
identical parameters returns it from the cache. -/
theorem cache_identity_witness :
    get_user_connection_engine S0 1 2 "sqlite" (some "/tmp/f.db") none none none
        none ST1 = .ok (E1, ST1)
    ∧ lookupEngine ST1.engines (1, 2) = some E1 := by
  have h := cache_identity S0 1 2 "sqlite" (some "/tmp/f.db") none none none
    none st0 E1 ST1 (by rfl)
  exact ⟨h.1, h.2.1⟩

/-- C10: once `(user_id, connection_id)` is cached, every later
`get_user_connection_engine` call with that key returns the cached engine
regardless of the `db_type`, `host`, `port`, `username`, `password` or
`database_name` arguments, leaving the cache unchanged — until
`close_connections` clears every cached entry. -/
theorem cache_key_shadows_parameters (S : Settings) (uid cid : Int)
    (st : ConnState) (e : Engine)
    (h : lookupEngine st.engines (uid, cid) = some e) :
    (∀ (dt : String) (host : Option String) (port : Option Int)
        (username password database_name : Option String),
      get_user_connection_engine S uid cid dt host port username password
          database_name st = .ok (e, st))
    ∧ (close_connections st).engines = []
    ∧ lookupEngine (close_connections st).engines (uid, cid) = none := by
  refine ⟨fun dt host port username password database_name => ?_, rfl, rfl⟩
  simp only [get_user_connection_engine, h]

/-- Witness for C10: with `E1` cached under `(1, 2)`, a call supplying a
completely different record (postgres kind, other host/credentials) still
returns `E1`, and `close_connections` drops the entry. -/
theorem cache_key_shadows_parameters_witness :
    get_user_connection_engine S0 1 2 "postgres" (some "other-host") (some 5)
        (some "u2") (some "p2") (some "otherdb") ST1 = .ok (E1, ST1)
    ∧ lookupEngine (close_connections ST1).engines (1, 2) = none := by
  have h := cache_key_shadows_parameters S0 1 2 ST1 E1 (by rfl)
  exact ⟨h.1 "postgres" (some "other-host") (some 5) (some "u2") (some "p2")
    (some "otherdb"), h.2.2⟩

/-- Counterexample for C5: the claim says a cache-miss call raises exactly when
`db_kind` is none of `sqlite`/`postgres`/`custom` (or blank-schema `custom`),
but the code also accepts the alias `postgresql`, which is none of the three
yet completes without raising. -/
theorem config_error_iff_counterexample :
    lookupEngine st0.engines (1, 2) = none
    ∧ isErr (get_user_connection_engine S0 1 2 "postgresql" (some "h") none none
        none (some "d") st0) = false
    ∧ "postgresql" ∉ (["sqlite", "postgres", "custom"] : List String) := by
  decide

/-- C5 (amended): on a cache miss, `get_user_connection_engine` raises a
configuration error if and only if the lowercased `db_kind` is none of
`sqlite`/`postgres`/`postgresql`/`custom`, or it is `custom` and
`database_name` is absent or blank after stripping; all other cache-miss
constructions complete without raising from the cache's own logic. -/
theorem config_error_iff (S : Settings) (uid cid : Int) (dt : String)
    (host : Option String) (port : Option Int)
    (username password database_name : Option String)
    (st : ConnState) (hmiss : lookupEngine st.engines (uid, cid) = none) :
    isErr (get_user_connection_engine S uid cid dt host port username password
        database_name st) = true
    ↔ (pyLower dt ∉ (["sqlite", "postgres", "postgresql", "custom"] : List String)
       ∨ (pyLower dt = "custom" ∧ (strStrip (database_name.getD "")).isEmpty = true)) := by
  simp only [get_user_connection_engine, hmiss]
  by_cases h1 : pyLower dt = "sqlite"
  · simp [h1, isErr]
  · by_cases h2 : pyLower dt = "postgres" ∨ pyLower dt = "postgresql"
    · rcases h2 with h2 | h2 <;> simp [h1, h2, isErr]
    · push_neg at h2
      by_cases h3 : pyLower dt = "custom"
      · by_cases h4 : (strStrip (database_name.getD "")).isEmpty
        · simp [h1, h2.1, h2.2, h3, h4, isErr]
        · simp [h1, h2.1, h2.2, h3, h4, isErr]
      · simp [h1, h2.1, h2.2, h3, isErr]

/-- Witness for C5 (amended): on the empty cache, an unsupported kind `mongo`
raises, and a blank-schema `custom` raises. -/
theorem config_error_iff_witness :
    isErr (get_user_connection_engine S0 1 2 "mongo" (some "h") none none none
        (some "d") st0) = true
    ∧ isErr (get_user_connection_engine S0 1 2 "custom" none none none none
        (some "   ") st0) = true := by
  refine ⟨?_, ?_⟩
  · exact (config_error_iff S0 1 2 "mongo" (some "h") none none none (some "d")
      st0 (by rfl)).mpr (by decide)
  · exact (config_error_iff S0 1 2 "custom" none none none none (some "   ")
      st0 (by rfl)).mpr (by decide)

/-- A `custom`-kind record bound to schema `s`, table `t1`, owned by user 7. -/
def recCustomA : ConnRecord :=
  { db_type := some "custom", host := none, port := none, username := none,
    encrypted_password := none, iv := none, database_name := some "s",
    table_name := some "t1" }

/-- A sibling `custom`-kind record: same schema `s`, table `t2`. -/
def recCustomB : ConnRecord := { recCustomA with table_name := some "t2" }

/-- An environment over the given credential records whose external calls all
succeed trivially (decryption fails, which no claim below depends on). -/
def envOf (records : List ((Int × Int) × ConnRecord)) : Env :=
  { settings := S0, records := records,
    decrypt := fun _ _ _ => .error (),
    runQuery := fun _ _ => .ok (.norows none),
    inspectEngine := fun _ => .ok (),
    dialectOf := fun _ => { name := some "postgresql", preparer := none },
    getTableNames := fun _ => .ok [],
    getColumns := fun _ _ => .ok [],
    connect := fun _ => .ok (),
    runSample := fun _ _ => .ok [] }

/-- Environment holding the two sibling `custom` records of user 7. -/
def env4 : Env := envOf [((7, 1), recCustomA), ((7, 2), recCustomB)]

/-- Multi-id reference listing the siblings as `[1, 2]`. -/
def refA : ConnRef :=
  { user_id := some 7, connection_id := none, id := none, connection_ids := some [1, 2] }

/-- The same sibling set listed as `[2, 1]`. -/
def refB : ConnRef :=
  { user_id := some 7, connection_id := none, id := none, connection_ids := some [2, 1] }

/-- Engine built for `refA` (representative id 1, cached under `(7, 1)`). -/
def EC1 : Engine := { id := 0, url := "postgresql://app", searchPath := some "s" }

/-- Cache state after resolving `refA`. -/
def stC1 : ConnState :=
  { engines := [((7, 1), EC1)], sessionFactories := [(7, 1)], nextId := 1 }

/-- Engine built for `refB` (representative id 2, cached under `(7, 2)`):
a distinct object from `EC1`. -/
def EC2 : Engine := { id := 1, url := "postgresql://app", searchPath := some "s" }

/-- Cache state after resolving `refB` on top of `stC1`. -/
def stC2 : ConnState :=
  { engines := [((7, 2), EC2), ((7, 1), EC1)],
    sessionFactories := [(7, 2), (7, 1)], nextId := 2 }

set_option maxRecDepth 8000 in
/-- Counterexample for C4: the references `[1, 2]` and `[2, 1]` draw from the
same sibling set of `custom` records sharing one schema, yet they resolve to
engines cached under different keys — distinct handle objects, not the same
engine handle. -/
theorem multi_id_same_engine_counterexample :
    _resolve_engine_from_connection env4 st0 refA
      = ((some EC1, some "custom", some "t1"), stC1)
    ∧ _resolve_engine_from_connection env4 stC1 refB
      = ((some EC2, some "custom", some "t2"), stC2)
    ∧ EC1 ≠ EC2 := by
  refine ⟨rfl, rfl, by decide⟩

/-- C4 (amended): a multi-id reference resolves through its first id's record;
two references whose lists start with the same first id obtain the identical
engine; references over the same sibling `custom` set with different first ids
obtain engines cached under different keys — distinct handle objects — that
are nevertheless identically configured: both point at the application's
Postgres database with the same `search_path` schema. -/
theorem multi_id_first_pick_and_shared_schema
    (env : Env) (st : ConnState) (uid i j : Int) (rest rest' : List Int)
    (ri rj : ConnRecord) (s : String)
    (hri : lookupRecord env.records (uid, i) = some ri)
    (hrj : lookupRecord env.records (uid, j) = some rj)
    (hti : pyLower (ri.db_type.getD "") = "custom")
    (htj : pyLower (rj.db_type.getD "") = "custom")
    (hdi : ri.database_name = some s)
    (hdj : rj.database_name = some s)
    (hs : (strStrip s).isEmpty = false)
    (hmi : lookupEngine st.engines (uid, i) = none)
    (hmj : lookupEngine st.engines (uid, j) = none)
    (hij : i ≠ j) :
    _resolve_engine_from_connection env st
        { user_id := some uid, connection_id := none, id := none,
          connection_ids := some (i :: rest) }
      = _resolve_engine_from_connection env st
          { user_id := some uid, connection_id := some i, id := none,
            connection_ids := none }
    ∧ _resolve_engine_from_connection env st
        { user_id := some uid, connection_id := none, id := none,
          connection_ids := some (i :: rest) }
      = ((some { id := st.nextId, url := env.settings.postgres_url,
                 searchPath := some ((strStrip s).take MAX_IDENTIFIER_LEN) },
          ri.db_type, ri.table_name),
         { engines := ((uid, i),
             { id := st.nextId, url := env.settings.postgres_url,
               searchPath := some ((strStrip s).take MAX_IDENTIFIER_LEN) }) :: st.engines,
           sessionFactories := (uid, i) :: st.sessionFactories,
           nextId := st.nextId + 1 })
    ∧ _resolve_engine_from_connection env
        { engines := ((uid, i),
            { id := st.nextId, url := env.settings.postgres_url,
              searchPath := some ((strStrip s).take MAX_IDENTIFIER_LEN) }) :: st.engines,
          sessionFactories := (uid, i) :: st.sessionFactories,
          nextId := st.nextId + 1 }
        { user_id := some uid, connection_id := none, id := none,
          connection_ids := some (j :: rest') }
      = ((some { id := st.nextId + 1, url := env.settings.postgres_url,
                 searchPath := some ((strStrip s).take MAX_IDENTIFIER_LEN) },
          rj.db_type, rj.table_name),
         { engines := ((uid, j),
             { id := st.nextId + 1, url := env.settings.postgres_url,
               searchPath := some ((strStrip s).take MAX_IDENTIFIER_LEN) }) ::
             ((uid, i),
               { id := st.nextId, url := env.settings.postgres_url,
                 searchPath := some ((strStrip s).take MAX_IDENTIFIER_LEN) }) :: st.engines,
           sessionFactories := (uid, j) :: (uid, i) :: st.sessionFactories,
           nextId := st.nextId + 2 })
    ∧ (st.nextId : Nat) ≠ st.nextId + 1 := by
  have hcl : pyLower "custom" = "custom" := rfl
  refine ⟨rfl, ?_, ?_, by omega⟩
  · simp only [_resolve_engine_from_connection, hri, hti, hdi,
      get_user_connection_engine, hmi, hcl]
    simp [hs]
  · simp only [_resolve_engine_from_connection, hrj, htj, hdj,
      get_user_connection_engine, hcl]
    rw [show lookupEngine (((uid, i),
        { id := st.nextId, url := env.settings.postgres_url,
          searchPath := some ((strStrip s).take MAX_IDENTIFIER_LEN) }) :: st.engines)
        (uid, j) = none by simp [lookupEngine, hij, hmj]]
    simp [hs]

/-- Witness for C4 (amended): concrete instantiation on user 7's sibling set
`{1, 2}` with schema `s`: `[1, 2]` resolves exactly as `connection_id = 1`
does, and the two engines built for first ids 1 and 2 share URL and
`search_path` (while being distinct objects, per the counterexample). -/
theorem multi_id_first_pick_and_shared_schema_witness :
    _resolve_engine_from_connection env4 st0 refA
      = _resolve_engine_from_connection env4 st0
          { user_id := some 7, connection_id := some 1, id := none,
            connection_ids := none }
    ∧ EC1.url = EC2.url ∧ EC1.searchPath = EC2.searchPath := by
  have h := multi_id_first_pick_and_shared_schema env4 st0 7 1 2 [2] [1]
    recCustomA recCustomB "s" rfl rfl rfl rfl rfl rfl rfl rfl rfl (by decide)
  exact ⟨h.1, rfl, rfl⟩

/-- C1: for every connection reference and SQL text, `execute_query` returns a
pair with exactly one non-null component — `isSome` of the result text equals
`isNone` of the error — and (being a total function of the modelled state) it
never raises. -/
theorem execute_query_error_tupling (env : Env) (st : ConnState)
    (connection : ConnRef) (sql_query : String) :
    ((execute_query env st connection sql_query).1.1).isSome
      = ((execute_query env st connection sql_query).1.2).isNone := by
  simp only [execute_query]
  repeat' split
  all_goals rfl

/-- C2: when the driver reports a row-returning statement, `execute_query`
serializes `{columns, rows}` where `rows` is the first-at-most-50 fetched row
mappings and `columns` is the key list of the first fetched row (empty when no
rows); the row list never exceeds 50 entries and a 200-row result is capped at
exactly 50.  When the driver reports no rows, the result is `{rowcount}` with
the driver-reported (possibly null) count. -/
theorem execute_query_caps_and_shapes (env : Env) (st : ConnState)
    (uid cid : Int) (r : ConnRecord) (e : Engine) (st' : ConnState)
    (sql : String)
    (hcid : cid ≠ 0)
    (hrec : lookupRecord env.records (uid, cid) = some r)
    (hpw : r.encrypted_password = none)
    (heng : get_user_connection_engine env.settings uid cid
        (pyLower (r.db_type.getD "")) r.host r.port r.username none
        r.database_name st = .ok (e, st')) :
    (∀ rs, env.runQuery e sql = .ok (.rows rs) →
      execute_query env st
          { user_id := some uid, connection_id := some cid, id := none,
            connection_ids := none } sql
        = ((some (serializeResult (.table
              (match rs.take 50 with
               | [] => []
               | row :: _ => row.map Prod.fst)
              (rs.take 50))), none), st')
      ∧ (rs.take 50).length ≤ 50
      ∧ (rs.length = 200 → (rs.take 50).length = 50))
    ∧ (∀ rc, env.runQuery e sql = .ok (.norows rc) →
      execute_query env st
          { user_id := some uid, connection_id := some cid, id := none,
            connection_ids := none } sql
        = ((some (serializeResult (.count rc)), none), st')) := by
  have hc : pyTruthyInt (some cid) = true := by
    simp [pyTruthyInt, hcid]
  constructor
  · intro rs hq
    refine ⟨?_, ?_, ?_⟩
    · simp [execute_query, pyOrInt, hc, hrec, hpw, heng, hq, pyTruthy]
    · simp [List.length_take]
    · intro h200
      simp [List.length_take, h200]
  · intro rc hq
    simp [execute_query, pyOrInt, hc, hrec, hpw, heng, hq, pyTruthy]

/-- A password-less `sqlite` record owned by user 1 as connection 2. -/
def rec2 : ConnRecord :=
  { db_type := some "sqlite", host := some "/tmp/f.db", port := none,
    username := none, encrypted_password := none, iv := none,
    database_name := none, table_name := none }

/-- A one-column row mapping used by the driver stub below. -/
def row2 : List (String × String) := [("n", "1")]

/-- Environment whose driver yields 200 identical rows for every statement. -/
def env2 : Env :=
  { envOf [((1, 2), rec2)] with
    runQuery := fun _ _ => .ok (.rows (List.replicate 200 row2)) }

/-- Environment whose driver reports a non-row-returning statement with
rowcount 3. -/
def env2b : Env :=
  { envOf [((1, 2), rec2)] with runQuery := fun _ _ => .ok (.norows (some 3)) }

/-- The minimal reference `{user_id: 1, connection_id: 2}`. -/
def ref12 : ConnRef :=
  { user_id := some 1, connection_id := some 2, id := none, connection_ids := none }

set_option maxRecDepth 8000 in
/-- Witness for C2: a 200-row driver result is serialized with exactly 50
rows, and a rowcount-3 non-row result is serialized as `{rowcount}`. -/
theorem execute_query_caps_and_shapes_witness :
    execute_query env2 st0 ref12 "SELECT n FROM t"
      = ((some (serializeResult (.table
            (match (List.replicate 200 row2).take 50 with
             | [] => []
             | row :: _ => row.map Prod.fst)
            ((List.replicate 200 row2).take 50))), none), ST1)
    ∧ ((List.replicate 200 row2).take 50).length = 50
    ∧ execute_query env2b st0 ref12 "UPDATE t SET n = 1"
      = ((some (serializeResult (.count (some 3))), none), ST1) := by
  have h := execute_query_caps_and_shapes env2 st0 1 2 rec2 E1 ST1
    "SELECT n FROM t" (by decide) rfl rfl rfl
  have h2 := execute_query_caps_and_shapes env2b st0 1 2 rec2 E1 ST1
    "UPDATE t SET n = 1" (by decide) rfl rfl rfl
  exact ⟨(h.1 _ rfl).1, (h.1 _ rfl).2.2 (by simp), h2.2 (some 3) rfl⟩

/-- C9: if the stored record carries an encrypted password and IV but
decryption raises, resolution proceeds exactly as if no password were stored
(`password = None` is passed to the engine cache) instead of aborting — in
both the query-execution path and the schema-summary resolution path. -/
theorem decrypt_failure_degrades_to_no_password
    (env env' : Env) (st : ConnState) (uid cid : Int) (r : ConnRecord)
    (hrec : lookupRecord env.records (uid, cid) = some r)
    (hrec' : lookupRecord env'.records (uid, cid)
      = some { r with encrypted_password := none, iv := none })
    (hep : pyTruthy r.encrypted_password = true)
    (hiv : pyTruthy r.iv = true)
    (hdec : env.decrypt (r.encrypted_password.getD "") (r.iv.getD "")
        env.settings.master_encryption_key = .error ())
    (hS : env'.settings = env.settings)
    (hQ : env'.runQuery = env.runQuery) :
    (∀ sql, execute_query env st
        { user_id := some uid, connection_id := some cid, id := none,
          connection_ids := none } sql
      = execute_query env' st
          { user_id := some uid, connection_id := some cid, id := none,
            connection_ids := none } sql)
    ∧ _resolve_engine_from_connection env st
        { user_id := some uid, connection_id := some cid, id := none,
          connection_ids := none }
      = _resolve_engine_from_connection env' st
          { user_id := some uid, connection_id := some cid, id := none,
            connection_ids := none } := by
  constructor
  · intro sql
    by_cases hc0 : cid = 0
    · subst hc0
      simp [execute_query, pyOrInt, pyTruthyInt]
    · have hc : pyTruthyInt (some cid) = true := by simp [pyTruthyInt, hc0]
      simp only [execute_query, pyOrInt, hc, if_true, hrec, hrec', hep, hiv,
        hdec, hS, hQ, pyTruthy]
      simp
  · simp only [_resolve_engine_from_connection, hrec, hrec', hep, hiv, hdec,
      hS, hQ, pyTruthy]
    simp

/-- A `sqlite` record carrying an encrypted password and IV. -/
def rec9 : ConnRecord :=
  { db_type := some "sqlite", host := some "/tmp/f.db", port := none,
    username := none, encrypted_password := some "CIPHERTEXT",
    iv := some "IV", database_name := none, table_name := none }

/-- Environment over `rec9` (its `decrypt` always raises, per `envOf`). -/
def env9 : Env := envOf [((1, 2), rec9)]

/-- The same environment with the password fields erased from the record. -/
def env9n : Env :=
  envOf [((1, 2), { rec9 with encrypted_password := none, iv := none })]

/-- Witness for C9: with a stored password whose decryption raises, both
`execute_query` and the schema-path resolver behave exactly as they do when no
password is stored at all. -/
theorem decrypt_failure_degrades_witness :
    execute_query env9 st0 ref12 "SELECT 1"
      = execute_query env9n st0 ref12 "SELECT 1"
    ∧ _resolve_engine_from_connection env9 st0 ref12
      = _resolve_engine_from_connection env9n st0 ref12 := by
  have h := decrypt_failure_degrades_to_no_password env9 env9n st0 1 2 rec9
    rfl rfl rfl rfl rfl rfl rfl
  exact ⟨h.1 "SELECT 1", h.2⟩

/-- C7: a table with a non-empty column list but zero fetched sample rows
renders as a header row, a separator row, and exactly 3 placeholder rows of
empty cells (one cell per header column) — never zero data rows; an empty
column list renders as the "no columns" placeholder with no sample rows. -/
theorem render_empty_rows_placeholder (col_names : List String)
    (h : col_names ≠ []) :
    _render_markdown_table col_names []
      = ("| " ++ String.intercalate " | " col_names ++ " |")
        :: ("| " ++ String.intercalate " | "
              (List.replicate col_names.length "---") ++ " |")
        :: (List.replicate 3
              ("| " ++ String.intercalate " | "
                (List.replicate col_names.length "") ++ " |")
            ++ ["\n"])
    ∧ (List.replicate col_names.length "").length = col_names.length
    ∧ (∀ rows, _render_markdown_table [] rows = ["_No columns found._\n", "\n"]) := by
  refine ⟨?_, by simp, fun rows => rfl⟩
  cases col_names with
  | nil => exact absurd rfl h
  | cons a t => rfl

/-- Witness for C7: two columns, zero rows — header, separator, and exactly 3
two-cell placeholder rows. -/
theorem render_empty_rows_placeholder_witness :
    _render_markdown_table ["a", "b"] []
      = ("| " ++ String.intercalate " | " ["a", "b"] ++ " |")
        :: ("| " ++ String.intercalate " | "
              (List.replicate (["a", "b"] : List String).length "---") ++ " |")
        :: (List.replicate 3
              ("| " ++ String.intercalate " | "
                (List.replicate (["a", "b"] : List String).length "") ++ " |")
            ++ ["\n"])
    ∧ _render_markdown_table [] [[some "x"]] = ["_No columns found._\n", "\n"] := by
  have h := render_empty_rows_placeholder ["a", "b"] (by decide)
  exact ⟨h.1, h.2.2 [[some "x"]]⟩

/-- Counterexample for C6: for an SQL-Server-family dialect the built sampling
statement carries a trailing semicolon, so it is not exactly
`SELECT TOP 3 * FROM "T"` as claimed. -/
theorem dialect_sampling_counterexample :
    _sample_query { name := some "mssql", preparer := none } "T" 3
      = "SELECT TOP 3 * FROM \"T\";"
    ∧ "SELECT TOP 3 * FROM \"T\";" ≠ "SELECT TOP 3 * FROM \"T\"" := by
  exact ⟨rfl, by decide⟩

/-- C6 (amended): for every table name `T` and limit 3 the sampling statement
is `SELECT TOP 3 * FROM <q>;` on the SQL-Server family, `SELECT * FROM <q>
FETCH FIRST 3 ROWS ONLY` on Oracle, and `SELECT * FROM <q> LIMIT 3;` on every
other dialect (Postgres, SQLite, MySQL), where `<q>` is the identifier quoted
by the dialect's preparer, with double-quote wrapping as the fallback; a 5-row
table sampled with limit 3 yields exactly 3 rows. -/
theorem dialect_sampling_statements (T : String) :
    _sample_query { name := some "mssql", preparer := none } T 3
      = "SELECT TOP 3 * FROM "
          ++ _quote_identifier { name := some "mssql", preparer := none } T ++ ";"
    ∧ _sample_query { name := some "sqlserver", preparer := none } T 3
      = "SELECT TOP 3 * FROM "
          ++ _quote_identifier { name := some "sqlserver", preparer := none } T ++ ";"
    ∧ _sample_query { name := some "oracle", preparer := none } T 3
      = "SELECT * FROM "
          ++ _quote_identifier { name := some "oracle", preparer := none } T
          ++ " FETCH FIRST 3 ROWS ONLY"
    ∧ _sample_query { name := some "postgresql", preparer := none } T 3
      = "SELECT * FROM "
          ++ _quote_identifier { name := some "postgresql", preparer := none } T
          ++ " LIMIT 3;"
    ∧ _sample_query { name := some "sqlite", preparer := none } T 3
      = "SELECT * FROM "
          ++ _quote_identifier { name := some "sqlite", preparer := none } T
          ++ " LIMIT 3;"
    ∧ _sample_query { name := some "mysql", preparer := none } T 3
      = "SELECT * FROM "
          ++ _quote_identifier { name := some "mysql", preparer := none } T
          ++ " LIMIT 3;"
    ∧ _quote_identifier { name := some "postgresql", preparer := none } T
      = "\"" ++ T ++ "\""
    ∧ (∀ quote : String → String,
        _quote_identifier { name := some "postgresql", preparer := some quote } T
          = quote T)
    ∧ (∀ rows : List (List (Option String)), rows.length = 5 →
        (fetchSample rows 3).length = 3) := by
  refine ⟨rfl, rfl, ?_, ?_, ?_, ?_, rfl, fun quote => rfl, fun rows h5 => ?_⟩
  · rw [show _sample_query { name := some "oracle", preparer := none } T 3
        = "SELECT * FROM "
            ++ _quote_identifier { name := some "oracle", preparer := none } T
            ++ " FETCH FIRST " ++ "3" ++ " ROWS ONLY" from rfl]
    apply String.ext
    simp [String.data_append]
  · rw [show _sample_query { name := some "postgresql", preparer := none } T 3
        = "SELECT * FROM "
            ++ _quote_identifier { name := some "postgresql", preparer := none } T
            ++ " LIMIT " ++ "3" ++ ";" from rfl]
    apply String.ext
    simp [String.data_append]
  · rw [show _sample_query { name := some "sqlite", preparer := none } T 3
        = "SELECT * FROM "
            ++ _quote_identifier { name := some "sqlite", preparer := none } T
            ++ " LIMIT " ++ "3" ++ ";" from rfl]
    apply String.ext
    simp [String.data_append]
  · rw [show _sample_query { name := some "mysql", preparer := none } T 3
        = "SELECT * FROM "
            ++ _quote_identifier { name := some "mysql", preparer := none } T
            ++ " LIMIT " ++ "3" ++ ";" from rfl]
    apply String.ext
    simp [String.data_append]
  · simp [fetchSample, h5]

/-- Witness for C6 (amended): the concrete statements for table `T`, and the
3-of-5 sampling count. -/
theorem dialect_sampling_statements_witness :
    _sample_query { name := some "mssql", preparer := none } "T" 3
      = "SELECT TOP 3 * FROM "
          ++ _quote_identifier { name := some "mssql", preparer := none } "T" ++ ";"
    ∧ _sample_query { name := some "oracle", preparer := none } "T" 3
      = "SELECT * FROM "
          ++ _quote_identifier { name := some "oracle", preparer := none } "T"
          ++ " FETCH FIRST 3 ROWS ONLY"
    ∧ (fetchSample (List.replicate 5 [(none : Option String)]) 3).length = 3 := by
  have h := dialect_sampling_statements "T"
  exact ⟨h.1, h.2.2.1, h.2.2.2.2.2.2.2.2 _ (by simp)⟩

/-- C8: resolution and introspection never raise to the caller — a reference
whose `connection_id` matches no stored record resolves to `(None, None, None)`
and makes `get_db_schema` return the empty string; and when an engine was
resolved but top-level introspection fails (`inspect(engine)` raises, or the
connection cannot be opened at all), `get_db_schema` returns the empty string
instead of propagating. -/
theorem soft_fail_resolution_and_schema (env : Env) (st : ConnState) :
    (∀ (uid cid : Int),
      lookupRecord env.records (uid, cid) = none →
      _resolve_engine_from_connection env st
          { user_id := some uid, connection_id := some cid, id := none,
            connection_ids := none }
        = ((none, none, none), st)
      ∧ get_db_schema env st
          { user_id := some uid, connection_id := some cid, id := none,
            connection_ids := none }
        = ("", st))
    ∧ (∀ (connection : ConnRef) (engine : Engine) (dbt tn : Option String)
        (st' : ConnState) (msg : String),
      _resolve_engine_from_connection env st connection
        = ((some engine, dbt, tn), st') →
      env.inspectEngine engine = .error msg →
      get_db_schema env st connection = ("", st'))
    ∧ (∀ (connection : ConnRef) (engine : Engine) (dbt tn : Option String)
        (st' : ConnState) (msg : String),
      _resolve_engine_from_connection env st connection
        = ((some engine, dbt, tn), st') →
      env.inspectEngine engine = .ok () →
      env.connect engine = .error msg →
      get_db_schema env st connection = ("", st')) := by
  refine ⟨fun uid cid hmiss => ?_, fun connection engine dbt tn st' msg hres hins => ?_,
    fun connection engine dbt tn st' msg hres hins hcon => ?_⟩
  · have hr : _resolve_engine_from_connection env st
        { user_id := some uid, connection_id := some cid, id := none,
          connection_ids := none } = ((none, none, none), st) := by
      simp [_resolve_engine_from_connection, hmiss]
    exact ⟨hr, by simp [get_db_schema, hr]⟩
  · simp [get_db_schema, hres, hins]
  · simp [get_db_schema, hres, hins, hcon]

/-- Environment with an empty credential store. -/
def env8a : Env := envOf []

/-- Environment over `rec2` whose `inspect(engine)` call raises. -/
def env8b : Env :=
  { envOf [((1, 2), rec2)] with inspectEngine := fun _ => .error "boom" }

/-- Environment over `rec2` whose `engine.connect()` call raises. -/
def env8c : Env :=
  { envOf [((1, 2), rec2)] with connect := fun _ => .error "down" }

set_option maxRecDepth 8000 in
/-- Witness for C8: a missing record yields `(None, None, None)` and an empty
summary; a raising `inspect` and a raising `connect` each yield an empty
summary. -/
theorem soft_fail_resolution_and_schema_witness :
    _resolve_engine_from_connection env8a st0 ref12 = ((none, none, none), st0)
    ∧ get_db_schema env8a st0 ref12 = ("", st0)
    ∧ get_db_schema env8b st0 ref12 = ("", ST1)
    ∧ get_db_schema env8c st0 ref12 = ("", ST1) := by
  have ha := (soft_fail_resolution_and_schema env8a st0).1 1 2 rfl
  have hb := (soft_fail_resolution_and_schema env8b st0).2.1 ref12 E1
    (some "sqlite") none ST1 "boom" rfl rfl
  have hc := (soft_fail_resolution_and_schema env8c st0).2.2 ref12 E1
    (some "sqlite") none ST1 "down" rfl rfl rfl
  exact ⟨ha.1, ha.2, hb, hc⟩
